import Mathlib

/-!
Shallow embedding of the poa-multi-agent repository: the completion poller
(`wait_for_task_completion` in src/tools/crawler_tools.py), the engagement
calculator and tool adapters (src/tools/analysis_tools.py), the query-limit
and topic-count clamps, and the agent pipeline assembler
(src/services/agent_runner.py with the poa_agents constructors).

External HTTP calls are modelled as oracles: a status-fetch sequence for the
poller, and an `Except`-valued call outcome for each adapter, mirroring the
try/except structure of the Python code.
-/

/-- Decoded JSON mapping produced by one `get_task_status` call, restricted to
the observations the poll loop makes on it: whether the mapping contains the
key "error" (the adapter inserts one on any transport failure, and a server
payload may also carry one), and the value of its "status" key if present. -/
structure StatusPayload where
  hasError : Bool
  status : Option String
deriving DecidableEq

/-- The terminal task states tested by the poll loop,
`["completed", "failed", "cancelled"]` in the source. -/
def terminalStates : List String := ["completed", "failed", "cancelled"]

/-- Mirrors `status_result.get("status") in ["completed", "failed", "cancelled"]`:
a missing "status" key is not terminal. -/
def isTerminal (s : Option String) : Bool :=
  match s with
  | some v => terminalStates.contains v
  | none => false

/-- Value returned by the poll loop. `payload s` stands for returning the fetched
`status_result_json` string verbatim (both the error branch and the
terminal-status branch of the source return that same string); `timeoutErr`
stands for the synthesized mapping built on deadline expiry, which carries the
task id, the literal status "timeout", the last observed status payload, and an
error message (the message text itself is not modelled). -/
inductive PollResult where
  | payload (s : StatusPayload)
  | timeoutErr (taskId : String) (status : String) (lastStatus : StatusPayload)
deriving DecidableEq

/-- The body of `wait_for_task_completion`, with the external world abstracted:
`fetch n` is the decoded result of the n-th `get_task_status` call and
`elapsed n` is the wall-clock time (seconds since `start_time`) measured at the
timeout check of iteration n. `fuel` bounds the number of iterations since the
source loop need not terminate; `n` is the current iteration index. The result
pairs the returned value with the index of the iteration that returned, which
equals the number of `asyncio.sleep(poll_interval)` calls performed before
returning (one sleep ends every iteration that does not return). -/
def waitLoop (fetch : Nat → StatusPayload) (elapsed : Nat → ℚ) (taskId : String)
    (timeout : ℚ) : Nat → Nat → Option (PollResult × Nat)
  | 0, _ => none
  | fuel + 1, n =>
    let s := fetch n
    if s.hasError then some (PollResult.payload s, n)
    else if isTerminal s.status then some (PollResult.payload s, n)
    else if timeout < elapsed n then some (PollResult.timeoutErr taskId "timeout" s, n)
    else waitLoop fetch elapsed taskId timeout fuel (n + 1)

/-- `wait_for_task_completion` starts the loop at iteration 0 (with
`start_time` just taken, so `elapsed` is measured from here). -/
def wait_for_task_completion (fetch : Nat → StatusPayload) (elapsed : Nat → ℚ)
    (task_id : String) (timeout : ℚ) (fuel : Nat) : Option (PollResult × Nat) :=
  waitLoop fetch elapsed task_id timeout fuel 0

/-- The status sequence [running, running, completed]: the first two fetches
observe a running task, every later fetch observes a completed one. -/
def statusSeq : Nat → StatusPayload := fun n =>
  if n < 2 then { hasError := false, status := some "running" }
  else { hasError := false, status := some "completed" }

/-- Helper: an iteration whose fetched payload has no error key, no terminal
status, and has not yet exceeded the timeout ends with a sleep and continues
with the next iteration. -/
theorem waitLoop_step (fetch : Nat → StatusPayload) (elapsed : Nat → ℚ)
    (taskId : String) (timeout : ℚ) (fuel n : Nat)
    (herr : (fetch n).hasError = false)
    (hterm : isTerminal (fetch n).status = false)
    (htime : ¬ timeout < elapsed n) :
    waitLoop fetch elapsed taskId timeout (fuel + 1) n
      = waitLoop fetch elapsed taskId timeout fuel (n + 1) := by
  simp [waitLoop, herr, hterm, htime]

/-- C1: if a status fetch returns a payload whose status is terminal
(completed/failed/cancelled), the poller returns that full payload in the same
iteration, with no further sleep; and on the status sequence
[running, running, completed] with poll interval 5 (so elapsed time 5n at
iteration n) and timeout 600, the poller returns the completed payload at
iteration 2, i.e. after exactly 2 sleep intervals. -/
theorem wait_terminal_returns_payload_immediately :
    (∀ (fetch : Nat → StatusPayload) (elapsed : Nat → ℚ) (taskId : String)
        (timeout : ℚ) (fuel n : Nat),
      isTerminal (fetch n).status = true →
      waitLoop fetch elapsed taskId timeout (fuel + 1) n
        = some (PollResult.payload (fetch n), n))
    ∧ wait_for_task_completion statusSeq (fun n => 5 * (n : ℚ)) "crawl_1" 600 10
        = some (PollResult.payload { hasError := false, status := some "completed" }, 2) := by
  have hA : ∀ (fetch : Nat → StatusPayload) (elapsed : Nat → ℚ) (taskId : String)
      (timeout : ℚ) (fuel n : Nat),
      isTerminal (fetch n).status = true →
      waitLoop fetch elapsed taskId timeout (fuel + 1) n
        = some (PollResult.payload (fetch n), n) := by
    intro fetch elapsed taskId timeout fuel n hterm
    cases herr : (fetch n).hasError <;> simp [waitLoop, herr, hterm]
  refine ⟨hA, ?_⟩
  calc wait_for_task_completion statusSeq (fun n => 5 * (n : ℚ)) "crawl_1" 600 10
      = waitLoop statusSeq (fun n => 5 * (n : ℚ)) "crawl_1" 600 9 1 :=
        waitLoop_step statusSeq (fun n => 5 * (n : ℚ)) "crawl_1" 600 9 0
          (by decide) (by decide) (by norm_num)
    _ = waitLoop statusSeq (fun n => 5 * (n : ℚ)) "crawl_1" 600 8 2 :=
        waitLoop_step statusSeq (fun n => 5 * (n : ℚ)) "crawl_1" 600 8 1
          (by decide) (by decide) (by norm_num)
    _ = some (PollResult.payload (statusSeq 2), 2) :=
        hA statusSeq (fun n => 5 * (n : ℚ)) "crawl_1" 600 7 2 (by decide)
    _ = some (PollResult.payload { hasError := false, status := some "completed" }, 2) := by
        decide

/-- Witness for C1: a fetch that observes "completed" at once makes the poller
return that payload at iteration 0. -/
theorem wait_terminal_returns_payload_immediately_witness :
    waitLoop (fun _ => { hasError := false, status := some "completed" })
        (fun _ => 0) "crawl_w" 600 1 0
      = some (PollResult.payload { hasError := false, status := some "completed" }, 0) :=
  wait_terminal_returns_payload_immediately.1
    (fun _ => { hasError := false, status := some "completed" })
    (fun _ => 0) "crawl_w" 600 0 0 (by decide)

/-- C2: when the fetched payload has no error key and no terminal status and
elapsed wall-clock time exceeds the timeout, the poller returns the synthesized
record carrying the task id, the literal status "timeout" and the last observed
payload; and with a zero or negative timeout the poller times out in its very
first iteration — after performing exactly one status check (the returned
index 0 records zero sleeps, and the last observed payload is that first
check's result), provided some positive time elapsed during that check. -/
theorem wait_timeout_returns_timeout_record :
    (∀ (fetch : Nat → StatusPayload) (elapsed : Nat → ℚ) (taskId : String)
        (timeout : ℚ) (fuel n : Nat),
      (fetch n).hasError = false →
      isTerminal (fetch n).status = false →
      timeout < elapsed n →
      waitLoop fetch elapsed taskId timeout (fuel + 1) n
        = some (PollResult.timeoutErr taskId "timeout" (fetch n), n))
    ∧ (∀ (fetch : Nat → StatusPayload) (elapsed : Nat → ℚ) (taskId : String)
        (timeout : ℚ),
      timeout ≤ 0 → 0 < elapsed 0 →
      (fetch 0).hasError = false →
      isTerminal (fetch 0).status = false →
      wait_for_task_completion fetch elapsed taskId timeout 1
        = some (PollResult.timeoutErr taskId "timeout" (fetch 0), 0)) := by
  have hA : ∀ (fetch : Nat → StatusPayload) (elapsed : Nat → ℚ) (taskId : String)
      (timeout : ℚ) (fuel n : Nat),
      (fetch n).hasError = false →
      isTerminal (fetch n).status = false →
      timeout < elapsed n →
      waitLoop fetch elapsed taskId timeout (fuel + 1) n
        = some (PollResult.timeoutErr taskId "timeout" (fetch n), n) := by
    intro fetch elapsed taskId timeout fuel n herr hterm htime
    simp [waitLoop, herr, hterm, htime]
  refine ⟨hA, ?_⟩
  intro fetch elapsed taskId timeout h0 hel herr hterm
  exact hA fetch elapsed taskId timeout 0 0 herr hterm (lt_of_le_of_lt h0 hel)

/-- Witness for C2: a never-terminal fetch with timeout 0 and one second
elapsed at the first check times out at iteration 0 with that first payload as
last observed status. -/
theorem wait_timeout_returns_timeout_record_witness :
    wait_for_task_completion (fun _ => { hasError := false, status := some "running" })
        (fun _ => 1) "crawl_t" 0 1
      = some (PollResult.timeoutErr "crawl_t" "timeout"
          { hasError := false, status := some "running" }, 0) :=
  wait_timeout_returns_timeout_record.2
    (fun _ => { hasError := false, status := some "running" })
    (fun _ => 1) "crawl_t" 0 (by norm_num) (by norm_num) (by decide) (by decide)

/-- C9: if the status fetch returns a payload containing an error key, the
poller returns that payload verbatim in the same iteration — the returned
index n equals the sleeps already performed, so no sleep and no further poll
happen at this layer. -/
theorem wait_error_returned_immediately :
    ∀ (fetch : Nat → StatusPayload) (elapsed : Nat → ℚ) (taskId : String)
      (timeout : ℚ) (fuel n : Nat),
      (fetch n).hasError = true →
      waitLoop fetch elapsed taskId timeout (fuel + 1) n
        = some (PollResult.payload (fetch n), n) := by
  intro fetch elapsed taskId timeout fuel n herr
  simp [waitLoop, herr]

/-- Witness for C9: a fetch whose first result carries an error key is returned
at iteration 0. -/
theorem wait_error_returned_immediately_witness :
    waitLoop (fun _ => { hasError := true, status := some "running" })
        (fun _ => 0) "crawl_e" 600 1 0
      = some (PollResult.payload { hasError := true, status := some "running" }, 0) :=
  wait_error_returned_immediately
    (fun _ => { hasError := true, status := some "running" })
    (fun _ => 0) "crawl_e" 600 0 0 (by decide)

/-- Rounds a rational to two decimal places, modelling Python round(x, 2) on
the values arising here (none of which sit on a rounding boundary, so the
half-even versus half-up distinction and binary floating point are immaterial). -/
def round2 (q : ℚ) : ℚ := (⌊q * 100 + 1 / 2⌋ : ℚ) / 100

/-- Rounds a rational to one decimal place, modelling Python round(x, 1)
likewise. -/
def round1 (q : ℚ) : ℚ := (⌊q * 10 + 1 / 2⌋ : ℚ) / 10

/-- The mapping built and JSON-encoded by analyze_engagement, with its nested
metrics and benchmarks flattened into one record. -/
structure EngagementAnalysis where
  engagement_rate : ℚ
  interaction_rate : ℚ
  engagement_level : String
  total_interactions : ℤ
  likes : ℤ
  comments : ℤ
  shares : ℤ
  views : ℤ
  platform_average : ℚ
  percentile : ℤ
  vs_average : ℚ

/-- Embedding of analyze_engagement. The source first rebinds each argument:
an integer x becomes `x or 0` (the identity on integers) except views, which
becomes `views or 1`, i.e. 1 whenever views is 0. Rates are computed on the
rebound views, guarded by `views > 0`, then rounded; the level thresholds are
compared against the unrounded rate. -/
def analyze_engagement (likes0 comments0 shares0 views0 : ℤ) : EngagementAnalysis :=
  let likes := if likes0 = 0 then 0 else likes0
  let comments := if comments0 = 0 then 0 else comments0
  let shares := if shares0 = 0 then 0 else shares0
  let views := if views0 = 0 then 1 else views0
  let total_interactions := likes + comments + shares
  let engagement_rate : ℚ :=
    if views > 0 then ((total_interactions : ℚ) / (views : ℚ)) * 100 else 0
  let interaction_rate : ℚ :=
    if views > 0 then (((comments + shares : ℤ) : ℚ) / (views : ℚ)) * 100 else 0
  let levelPercentile : String × ℤ :=
    if engagement_rate > 10 then ("very_high", 95)
    else if engagement_rate > 5 then ("high", 75)
    else if engagement_rate > 2 then ("medium", 50)
    else ("low", 25)
  let platform_avg : ℚ := 26 / 5
  { engagement_rate := round2 engagement_rate
    interaction_rate := round2 interaction_rate
    engagement_level := levelPercentile.1
    total_interactions := total_interactions
    likes := likes
    comments := comments
    shares := shares
    views := views
    platform_average := platform_avg
    percentile := levelPercentile.2
    vs_average :=
      if platform_avg > 0 then round1 ((engagement_rate / platform_avg - 1) * 100) else 0 }

/-- C3: on likes=1000, comments=50, shares=20, views=10000 the calculator
returns total_interactions 1070, engagement_rate 10.7 and level "very_high";
but on likes=100, comments=10, shares=5, views=0 it returns
engagement_rate 11500 (not 0): `views or 1` turns 0 into 1 before the
`views > 0` guard can ever produce 0, so the whole sum is divided by 1. The
repository test test_analyze_engagement_zero_views asserts engagement_rate 0
for this very input, so the code contradicts its own test. -/
theorem analyze_engagement_eval :
    (analyze_engagement 1000 50 20 10000).total_interactions = 1070
    ∧ (analyze_engagement 1000 50 20 10000).engagement_rate = 107 / 10
    ∧ (analyze_engagement 1000 50 20 10000).engagement_level = "very_high"
    ∧ (analyze_engagement 100 10 5 0).total_interactions = 115
    ∧ (analyze_engagement 100 10 5 0).engagement_rate = 11500
    ∧ (analyze_engagement 100 10 5 0).engagement_rate ≠ 0 := by
  refine ⟨by norm_num [analyze_engagement], ?_, ?_, by norm_num [analyze_engagement],
    ?_, ?_⟩ <;>
    norm_num [analyze_engagement, round2]

/-- Limit parameter actually placed in the dispatched query by
query_crawled_posts: the source builds `params` with `min(limit, 1000)`. -/
def query_crawled_posts_limit (limit : ℤ) : ℤ := min limit 1000

/-- Counterexample for C4: a requested limit of 0 is dispatched as 0, which
does not lie in the interval (0, 1000]. -/
theorem query_limit_counterexample :
    query_crawled_posts_limit 0 = 0
    ∧ ¬ (0 < query_crawled_posts_limit 0 ∧ query_crawled_posts_limit 0 ≤ 1000) := by
  decide

/-- C4 (amended): the dispatched limit never exceeds 1000; whenever the
requested limit is positive the dispatched limit lies in (0, 1000]; and a
requested limit of 5000 is clamped to 1000. No lower-bound clamp exists. -/
theorem query_limit_clamp_upper :
    (∀ limit : ℤ, query_crawled_posts_limit limit ≤ 1000)
    ∧ (∀ limit : ℤ, 0 < limit →
        0 < query_crawled_posts_limit limit ∧ query_crawled_posts_limit limit ≤ 1000)
    ∧ query_crawled_posts_limit 5000 = 1000 := by
  refine ⟨fun limit => min_le_right _ _,
    fun limit hl => ⟨lt_min hl (by norm_num), min_le_right _ _⟩, by decide⟩

/-- Witness for C4 (amended): a requested limit of 50 is dispatched inside
(0, 1000]. -/
theorem query_limit_clamp_upper_witness :
    0 < query_crawled_posts_limit 50 ∧ query_crawled_posts_limit 50 ≤ 1000 :=
  query_limit_clamp_upper.2.1 50 (by decide)

/-- Topic count actually dispatched by extract_topics: the source sends
`max(3, min(num_topics, 20))`. -/
def extract_topics_num_topics (num_topics : ℤ) : ℤ := max 3 (min num_topics 20)

/-- C6: the dispatched topic count always lies in [3, 20]; requesting 1
dispatches 3 and requesting 50 dispatches 20. -/
theorem extract_topics_clamp :
    (∀ n : ℤ, 3 ≤ extract_topics_num_topics n ∧ extract_topics_num_topics n ≤ 20)
    ∧ extract_topics_num_topics 1 = 3
    ∧ extract_topics_num_topics 50 = 20 := by
  refine ⟨fun n => ⟨le_max_left _ _, max_le (by norm_num) (min_le_right _ _)⟩,
    by decide, by decide⟩

/-- Failure raised inside a tool adapter body, matching its two except clauses:
an httpx.HTTPError (connection failure or raise_for_status on a non-2xx
response), or any other exception (for example a JSON decoding failure),
each carrying the stringified exception. -/
inductive AdapterFailure where
  | httpError (msg : String)
  | unexpected (msg : String)
deriving DecidableEq

/-- Result of a tool adapter: the decoded payload of a successful call, or the
adapter's synthesized error record. The adapter never raises. -/
inductive ToolResult (ε α : Type) where
  | ok (a : α)
  | err (e : ε)
deriving DecidableEq

/-- Error record built by create_crawler_task on failure. -/
structure CrawlTaskError where
  error : String
  platform : String
  crawler_type : String
deriving DecidableEq

/-- Embedding of create_crawler_task. The HTTP round trip (including the
json.loads of config_json inside the same try block) is abstracted as `call`:
a decoded response payload of type α or an AdapterFailure. -/
def create_crawler_task (platform crawler_type config_json : String)
    (call : Except AdapterFailure α) : ToolResult CrawlTaskError α :=
  match call with
  | .ok p => .ok p
  | .error (.httpError m) =>
      .err { error := "Failed to create crawler task: " ++ m
             platform := platform
             crawler_type := crawler_type }
  | .error (.unexpected m) =>
      .err { error := "Unexpected error: " ++ m
             platform := platform
             crawler_type := crawler_type }

/-- Error record built by analyze_sensitive_content on failure: has_violation
is always present, defaulted to false. -/
structure SensitiveContentError where
  error : String
  video_id : String
  has_violation : Bool
deriving DecidableEq

/-- Embedding of analyze_sensitive_content with the HTTP round trip abstracted
as `call`. -/
def analyze_sensitive_content (video_url video_id : String)
    (call : Except AdapterFailure α) : ToolResult SensitiveContentError α :=
  match call with
  | .ok p => .ok p
  | .error (.httpError m) =>
      .err { error := "Failed to analyze sensitive content: " ++ m
             video_id := video_id
             has_violation := false }
  | .error (.unexpected m) =>
      .err { error := "Unexpected error: " ++ m
             video_id := video_id
             has_violation := false }

/-- C5: on any failure, create_crawler_task returns (never raises) an error
record whose error message wraps the exception text and whose platform and
crawler_type fields match the request; and analyze_sensitive_content likewise
returns an error record with the matching video_id and has_violation defined
as false. -/
theorem adapter_failure_error_shapes :
    (∀ (α : Type) (platform crawler_type config_json m : String),
      create_crawler_task (α := α) platform crawler_type config_json
          (Except.error (AdapterFailure.httpError m))
        = ToolResult.err
            { error := "Failed to create crawler task: " ++ m
              platform := platform
              crawler_type := crawler_type }
      ∧ create_crawler_task (α := α) platform crawler_type config_json
          (Except.error (AdapterFailure.unexpected m))
        = ToolResult.err
            { error := "Unexpected error: " ++ m
              platform := platform
              crawler_type := crawler_type })
    ∧ (∀ (α : Type) (video_url video_id m : String),
      analyze_sensitive_content (α := α) video_url video_id
          (Except.error (AdapterFailure.httpError m))
        = ToolResult.err
            { error := "Failed to analyze sensitive content: " ++ m
              video_id := video_id
              has_violation := false }
      ∧ analyze_sensitive_content (α := α) video_url video_id
          (Except.error (AdapterFailure.unexpected m))
        = ToolResult.err
            { error := "Unexpected error: " ++ m
              video_id := video_id
              has_violation := false }) :=
  ⟨fun _ _ _ _ _ => ⟨rfl, rfl⟩, fun _ _ _ _ => ⟨rfl, rfl⟩⟩

/-- Error record built by analyze_sentiment on failure: alongside the message
and the original post_id, it carries the full default sentiment payload. -/
structure SentimentError where
  error : String
  post_id : String
  overall_sentiment : String
  sentiment_score : ℚ
  emotions : List (String × ℚ)
  confidence : ℚ
deriving DecidableEq

/-- Embedding of analyze_sentiment with the HTTP round trip abstracted as
`call`. Both except clauses return the neutral default payload plus the error
message and post_id. -/
def analyze_sentiment (text post_id : String)
    (call : Except AdapterFailure α) : ToolResult SentimentError α :=
  match call with
  | .ok p => .ok p
  | .error (.httpError m) =>
      .err { error := "Failed to analyze sentiment: " ++ m
             post_id := post_id
             overall_sentiment := "neutral"
             sentiment_score := 0
             emotions := []
             confidence := 0 }
  | .error (.unexpected m) =>
      .err { error := "Unexpected error: " ++ m
             post_id := post_id
             overall_sentiment := "neutral"
             sentiment_score := 0
             emotions := []
             confidence := 0 }

/-- C10: on any failure, analyze_sentiment returns an error record carrying
the original post_id, overall_sentiment "neutral", sentiment_score 0, empty
emotions and confidence 0 — exactly the shape of a genuinely neutral analysis,
distinguished only by the presence of the error message. -/
theorem analyze_sentiment_failure_defaults :
    ∀ (α : Type) (text post_id m : String),
      analyze_sentiment (α := α) text post_id
          (Except.error (AdapterFailure.httpError m))
        = ToolResult.err
            { error := "Failed to analyze sentiment: " ++ m
              post_id := post_id
              overall_sentiment := "neutral"
              sentiment_score := 0
              emotions := []
              confidence := 0 }
      ∧ analyze_sentiment (α := α) text post_id
          (Except.error (AdapterFailure.unexpected m))
        = ToolResult.err
            { error := "Unexpected error: " ++ m
              post_id := post_id
              overall_sentiment := "neutral"
              sentiment_score := 0
              emotions := []
              confidence := 0 } :=
  fun _ _ _ _ => ⟨rfl, rfl⟩

/-- An agent as configured by the poa_agents constructors: name, model
identifier (the settings default), bound tool names, handoff targets (direct
references to already-built agents), whether an output_type contract is set,
and an allocation id modelling Python object identity (each constructor call
yields a fresh object). -/
inductive Agent where
  | mk (name : String) (model : String) (tools : List String)
      (handoffs : List Agent) (hasOutputType : Bool) (objId : Nat)

def Agent.name : Agent → String
  | .mk n _ _ _ _ _ => n

def Agent.model : Agent → String
  | .mk _ m _ _ _ _ => m

def Agent.tools : Agent → List String
  | .mk _ _ t _ _ _ => t

def Agent.handoffs : Agent → List Agent
  | .mk _ _ _ h _ _ => h

def Agent.objId : Agent → Nat
  | .mk _ _ _ _ _ i => i

/-- An agent with the allocation ids erased: its structural content only. -/
inductive AgentShape where
  | mk (name : String) (model : String) (tools : List String)
      (handoffs : List AgentShape) (hasOutputType : Bool)

/-- Erases allocation ids down to a given depth, leaving pure structure; the
first argument is fuel and must exceed the handoff-graph depth (the assembled
pipeline has depth 4, so any fuel of at least 5 is exact for it). -/
def eraseIds : Nat → Agent → AgentShape
  | 0, .mk n m t _ o _ => AgentShape.mk n m t [] o
  | fuel + 1, .mk n m t hs o _ => AgentShape.mk n m t (hs.map (eraseIds fuel)) o

/-- Checks, down to the given fuel depth, that every handoff edge points to an
agent with a strictly smaller allocation id — i.e. every agent only references
agents built before it, which makes the handoff graph acyclic by construction. -/
def idsDescending : Nat → Agent → Bool
  | 0, _ => false
  | fuel + 1, .mk _ _ _ hs _ i =>
      hs.all (fun h => decide (h.objId < i) && idsDescending fuel h)

/-- All agents in a handoff graph, down to the given fuel depth. -/
def nodesBelow : Nat → Agent → List Agent
  | 0, a => [a]
  | fuel + 1, a => a :: (a.handoffs.map (nodesBelow fuel)).flatten

/-- create_decision_support_agent: name "Decision Support", no tools, no
handoffs, output_type DecisionSupport. The Nat argument threads the allocator. -/
def create_decision_support_agent (fresh : Nat) : Agent × Nat :=
  (Agent.mk "Decision Support" "gpt-4-turbo" [] [] true fresh, fresh + 1)

/-- Modelled from the spec: poa_agents/report_generation.py is absent from the
sources (only its importers and call sites are present). Per the spec, the
Report-Generation agent is built after Decision-Support and hands off to it;
its tool list and output contract are not specified by the claims settled here
and are modelled as empty and present respectively. -/
def create_report_generation_agent (decision_support_agent : Agent)
    (fresh : Nat) : Agent × Nat :=
  (Agent.mk "Report Generation" "gpt-4-turbo" [] [decision_support_agent] true fresh,
    fresh + 1)

/-- create_content_analysis_agent: five analysis tools, one handoff to the
report generation agent, output_type AnalysisResult. -/
def create_content_analysis_agent (report_generation_agent : Agent)
    (fresh : Nat) : Agent × Nat :=
  (Agent.mk "Content Analysis" "gpt-4-turbo"
    ["analyze_sensitive_content", "analyze_sentiment", "extract_topics",
     "detect_trends", "analyze_engagement"]
    [report_generation_agent] true fresh, fresh + 1)

/-- create_data_collection_agent: five crawler tools, one handoff to the
content analysis agent, output_type CrawlerResult. -/
def create_data_collection_agent (content_analysis_agent : Agent)
    (fresh : Nat) : Agent × Nat :=
  (Agent.mk "Data Collection" "gpt-4o-mini"
    ["create_crawler_task", "get_task_status", "wait_for_task_completion",
     "get_crawler_statistics", "query_crawled_posts"]
    [content_analysis_agent] true fresh, fresh + 1)

/-- create_coordinator_agent: four crawler tools, handoffs to the data
collection agent and the analysis pipeline agent, no output_type. -/
def create_coordinator_agent (data_collection_agent analysis_pipeline_agent : Agent)
    (fresh : Nat) : Agent × Nat :=
  (Agent.mk "Coordinator" "gpt-4-turbo"
    ["create_crawler_task", "get_task_status", "wait_for_task_completion",
     "query_crawled_posts"]
    [data_collection_agent, analysis_pipeline_agent] false fresh, fresh + 1)

/-- initialize_agent_system: builds the five agents bottom-up — Decision
Support, then Report Generation, Content Analysis, Data Collection, and
finally the Coordinator (wired to Data Collection and Content Analysis) —
and returns the Coordinator. -/
def initialize_agent_system (fresh : Nat) : Agent × Nat :=
  let ds := create_decision_support_agent fresh
  let rg := create_report_generation_agent ds.1 ds.2
  let ca := create_content_analysis_agent rg.1 rg.2
  let dc := create_data_collection_agent ca.1 ca.2
  create_coordinator_agent dc.1 ca.1 dc.2

/-- Process state of the agent_runner module: the allocator counter (modelling
the Python heap, never reset) and the cached `_agent_system` singleton. -/
structure AgentSystemState where
  fresh : Nat
  cached : Option Agent

/-- The state at process start: nothing cached yet. -/
def initialState : AgentSystemState := { fresh := 0, cached := none }

/-- get_agent_system: builds and caches the pipeline on first call, returns
the cached instance thereafter. -/
def get_agent_system (s : AgentSystemState) : Agent × AgentSystemState :=
  match s.cached with
  | some a => (a, s)
  | none =>
      let r := initialize_agent_system s.fresh
      (r.1, { fresh := r.2, cached := some r.1 })

/-- reset_agent_system: discards the cached instance. -/
def reset_agent_system (s : AgentSystemState) : AgentSystemState :=
  { s with cached := none }

/-- C7: from any state, a second get_agent_system call returns the very agent
the first call returned (same instance); and in the process lifecycle that
starts from the initial state, a get after a reset returns an agent that is
structurally identical to the first one (equal shapes after erasing ids) but
is a distinct instance (different allocation id). -/
theorem agent_system_singleton_reset :
    (∀ s : AgentSystemState,
      (get_agent_system (get_agent_system s).2).1 = (get_agent_system s).1)
    ∧ eraseIds 16 (get_agent_system (reset_agent_system
          (get_agent_system initialState).2)).1
        = eraseIds 16 (get_agent_system initialState).1
    ∧ (get_agent_system (reset_agent_system (get_agent_system initialState).2)).1.objId
        ≠ (get_agent_system initialState).1.objId := by
  refine ⟨?_, rfl, by decide⟩
  intro s
  cases h : s.cached <;> simp [get_agent_system, h]

/-- The coordinator built by the assembler starting from a fresh allocator. -/
def theCoordinator : Agent := (initialize_agent_system 0).1

/-- C8: the assembled pipeline's entry point is the Coordinator with exactly
two outbound handoff edges, to Data Collection and Content Analysis in that
order; every agent in the graph named "Decision Support" has zero outbound
handoff edges; and every handoff edge in the graph points to an agent with a
strictly smaller allocation id — the agents were constructed in dependency
order, terminal agents first, so the graph is acyclic by construction. -/
theorem pipeline_graph_structure :
    theCoordinator.name = "Coordinator"
    ∧ theCoordinator.handoffs.length = 2
    ∧ theCoordinator.handoffs.map Agent.name = ["Data Collection", "Content Analysis"]
    ∧ (nodesBelow 16 theCoordinator).all
        (fun a => !(a.name == "Decision Support") || a.handoffs.isEmpty) = true
    ∧ idsDescending 16 theCoordinator = true :=
  ⟨rfl, rfl, rfl, rfl, rfl⟩
